import Mathlib

/-!
Shallow embedding of the Strava→Notion sync core (src/sync.py and
src/notion.py).  Raw Strava activities are modelled as records of optional
fields (a `none` field is a key absent from the Python dict); numeric
measurements are rationals; the Notion client is modelled as an oracle of
store responses, and every store call made during a sync is recorded in an
effect log so that claims about "no write happened" can be stated exactly.
-/

set_option autoImplicit false

namespace Strava2Notion

/-- A raw Strava activity dictionary.  Each field is `none` when the
corresponding key is absent from the dict. -/
structure Activity where
  id : Option Int
  name : Option String
  type : Option String
  sport_type : Option String
  start_date : Option String
  distance : Option ℚ
  moving_time : Option ℚ
  total_elevation_gain : Option ℚ
  average_speed : Option ℚ
  average_heartrate : Option ℚ
  average_cadence : Option ℚ
  average_watts : Option ℚ
deriving DecidableEq

/-- Python truthiness of `activity_data.get(key)` for a numeric field:
truthy iff the key is present with a non-zero value. -/
def truthyNum : Option ℚ → Bool
  | none => false
  | some x => x != 0

/-- Python truthiness of an optional string (`if planned_id:`): truthy iff
present and non-empty. -/
def truthyStr : Option String → Bool
  | none => false
  | some s => s != ""

/-- A value stored in a Notion page property (only the shapes used by
`create_activity`). -/
inductive PropVal where
  | titleV : String → PropVal
  | numberV : ℚ → PropVal
  | numberOptV : Option Int → PropVal
  | selectV : String → PropVal
  | dateV : Option String → PropVal
deriving DecidableEq

/-- The common properties built first in `create_activity`
(src/notion.py lines 77–109), in dict insertion order. -/
def commonProps (a : Activity) (sport_type : String) : List (String × PropVal) :=
  [("Name", PropVal.titleV (a.name.getD "Untitled Activity")),
   ("Strava ID", PropVal.numberOptV a.id),
   ("Type", PropVal.selectV sport_type),
   ("Date", PropVal.dateV a.start_date),
   ("Distance", PropVal.numberV ((a.distance.getD 0) / 1000)),
   ("Duration", PropVal.numberV ((a.moving_time.getD 0) / 60)),
   ("Elevation", PropVal.numberV (a.total_elevation_gain.getD 0))]

/-- Run-specific properties (src/notion.py lines 112–125). -/
def runProps (a : Activity) : List (String × PropVal) :=
  let avg_speed_kmh : ℚ :=
    if truthyNum a.average_speed then (a.average_speed.getD 0) * 3.6 else 0
  [("Average Pace", PropVal.numberV (if avg_speed_kmh > 0 then 60 / avg_speed_kmh else 0))]
  ++ (if truthyNum a.average_heartrate then
        [("Average HR", PropVal.numberV (a.average_heartrate.getD 0))] else [])
  ++ (if truthyNum a.average_cadence then
        [("Cadence", PropVal.numberV ((a.average_cadence.getD 0) * 2))] else [])

/-- Ride-specific properties (src/notion.py lines 127–140). -/
def rideProps (a : Activity) : List (String × PropVal) :=
  let avg_speed_kmh : ℚ :=
    if truthyNum a.average_speed then (a.average_speed.getD 0) * 3.6 else 0
  [("Average Speed", PropVal.numberV avg_speed_kmh)]
  ++ (if truthyNum a.average_watts then
        [("Average Power", PropVal.numberV (a.average_watts.getD 0))] else [])
  ++ (if truthyNum a.average_heartrate then
        [("Average HR", PropVal.numberV (a.average_heartrate.getD 0))] else [])

/-- Swim-specific properties (src/notion.py lines 142–149). -/
def swimProps (a : Activity) : List (String × PropVal) :=
  let avg_speed_mps : ℚ := a.average_speed.getD 0
  if avg_speed_mps > 0 then
    [("Average Pace", PropVal.numberV ((100 / avg_speed_mps) / 60))]
  else []

/-- The full property dict built by `create_activity` before the Notion
page-create call.  The sport-specific keys are disjoint from the common
keys, so dict update is faithfully modelled by list append together with
first-key `List.lookup`. -/
def createProperties (a : Activity) (sport_type : String) : List (String × PropVal) :=
  commonProps a sport_type ++
    (if sport_type = "Run" then runProps a
     else if sport_type = "Ride" then rideProps a
     else if sport_type = "Swim" then swimProps a
     else [])

/-- `SPORT_TYPE_MAP` from src/sync.py lines 22–33. -/
def SPORT_TYPE_MAP : List (String × String) :=
  [("Run", "Run"), ("TrailRun", "Run"), ("VirtualRun", "Run"),
   ("Ride", "Ride"), ("VirtualRide", "Ride"), ("MountainBikeRide", "Ride"),
   ("GravelRide", "Ride"), ("EBikeRide", "Ride"),
   ("Swim", "Swim"), ("OpenWaterSwim", "Swim")]

/-- `get_sport_type` from src/sync.py lines 36–50: the `sport_type` key is
used when present (Python `dict.get` falls back only on a missing key); the
result defaults to "Other" for labels outside the table. -/
def get_sport_type (a : Activity) : String :=
  let strava_type := a.type.getD ""
  let sport_type := a.sport_type.getD strava_type
  (SPORT_TYPE_MAP.lookup sport_type).getD "Other"

/-- A Notion page as returned inside a query response (only the `id` field
is ever read by the code). -/
structure Page where
  id : String
deriving DecidableEq

/-- A store call issued by the client during one activity sync.  Queries
and writes are both recorded so that the skip paths can be proved to issue
no create/update. -/
inductive Call where
  | queryActs : Option Int → Call
  | createCall : List (String × PropVal) → Call
  | queryPlanned : String → String → Call
  | updateRel : String → String → Call
  | updateStat : String → String → Call
deriving DecidableEq

/-- Oracle for the Notion API responses during one activity sync: each
operation is called at most once per activity, so a fixed response per
operation captures every behaviour.  `Except.error ()` models the
underlying client raising an exception. -/
structure ClientBehavior where
  actsQueryResp : Except Unit (List Page)
  createResp : Except Unit String
  plannedQueryResp : Except Unit (List Page)
  relUpdateResp : Except Unit Unit
  statusUpdateResp : Except Unit Unit

/-- `NotionClient.activity_exists` (src/notion.py lines 34–62): queries the
activities database by Strava ID; a non-empty result list means the
activity exists; an exception is re-raised to the caller. -/
def activity_exists (c : ClientBehavior) (strava_id : Option Int) :
    Except Unit Bool × List Call :=
  match c.actsQueryResp with
  | Except.ok results => (Except.ok (results.length > 0), [Call.queryActs strava_id])
  | Except.error e => (Except.error e, [Call.queryActs strava_id])

/-- `NotionClient.create_activity` (src/notion.py lines 64–163): builds the
property dict, issues the page create, and returns the new page id, or
`none` when the create call raises (the exception is caught inside). -/
def create_activity (c : ClientBehavior) (a : Activity) (sport_type : String) :
    Option String × List Call :=
  let props := createProperties a sport_type
  match c.createResp with
  | Except.ok page_id => (some page_id, [Call.createCall props])
  | Except.error _ => (none, [Call.createCall props])

/-- Python `activity_date.split('T')[0]`: the prefix before the first 'T'. -/
def takeBeforeT : List Char → List Char
  | [] => []
  | ch :: cs => if ch = 'T' then [] else ch :: takeBeforeT cs

/-- The date-only truncation in `find_planned_activity` (src/notion.py line
178): `activity_date.split('T')[0] if 'T' in activity_date else
activity_date`. -/
def dateOnly (s : String) : String :=
  if s.data.contains 'T' then String.mk (takeBeforeT s.data) else s

/-- `NotionClient.find_planned_activity` (src/notion.py lines 165–211):
truncates the date, queries the planned database by date AND type, and
returns the id of the first result; zero results or any exception yield
`none` (the exception is caught inside).  When the incoming date is `none`
(missing `start_date`), Python raises a `TypeError` on `'T' in None`
before the query is issued, which the same handler turns into `none`. -/
def find_planned_activity (c : ClientBehavior) (activity_date : Option String)
    (sport_type : String) : Option String × List Call :=
  match activity_date with
  | none => (none, [])
  | some d =>
    let date_only := dateOnly d
    match c.plannedQueryResp with
    | Except.error _ => (none, [Call.queryPlanned date_only sport_type])
    | Except.ok results =>
      match results with
      | [] => (none, [Call.queryPlanned date_only sport_type])
      | p :: _ => (some p.id, [Call.queryPlanned date_only sport_type])

/-- `NotionClient.link_to_planned_activity` (src/notion.py lines 213–244):
sets the relation property; an exception is caught inside and reported as
`false`. -/
def link_to_planned_activity (c : ClientBehavior) (activity_id planned_id : String) :
    Bool × List Call :=
  match c.relUpdateResp with
  | Except.ok _ => (true, [Call.updateRel activity_id planned_id])
  | Except.error _ => (false, [Call.updateRel activity_id planned_id])

/-- `NotionClient.update_planned_status` (src/notion.py lines 246–274):
sets the status property; an exception is caught inside and reported as
`false`. -/
def update_planned_status (c : ClientBehavior) (planned_id status : String) :
    Bool × List Call :=
  match c.statusUpdateResp with
  | Except.ok _ => (true, [Call.updateStat planned_id status])
  | Except.error _ => (false, [Call.updateStat planned_id status])

/-- `sync_activity` (src/sync.py lines 53–110).  The whole body runs inside
`try/except Exception`, so the only propagating failure — the re-raise in
`activity_exists` — is caught at this boundary and turned into `False`.
Emptiness checks on the returned ids follow Python truthiness. -/
def sync_activity (c : ClientBehavior) (a : Activity) : Bool × List Call :=
  let strava_id := a.id
  match activity_exists c strava_id with
  | (Except.error _, log) => (false, log)
  | (Except.ok ex, log) =>
    if ex then (true, log)
    else
      let sport_type := get_sport_type a
      if sport_type ∉ (["Run", "Ride", "Swim"] : List String) then (true, log)
      else
        match create_activity c a sport_type with
        | (activity_id, clog) =>
          if truthyStr activity_id then
            match find_planned_activity c a.start_date sport_type with
            | (planned_id, plog) =>
              if truthyStr planned_id then
                match link_to_planned_activity c (activity_id.getD "") (planned_id.getD "") with
                | (link_success, llog) =>
                  if link_success then
                    match update_planned_status c (planned_id.getD "") "Done" with
                    | (_, slog) => (true, log ++ clog ++ plog ++ llog ++ slog)
                  else (true, log ++ clog ++ plog ++ llog)
              else (true, log ++ clog ++ plog)
          else (false, log ++ clog)

/-- One step of the counting loop in `main` (src/sync.py lines 144–148). -/
def stepCount (counts : Nat × Nat) (ac : Activity × ClientBehavior) : Nat × Nat :=
  if (sync_activity ac.2 ac.1).1 then (counts.1 + 1, counts.2) else (counts.1, counts.2 + 1)

/-- The batch loop of `main` (src/sync.py lines 141–152): the success and
failure counters over the supplied list of activities (each paired with the
store behaviour it observes). -/
def runBatch (batch : List (Activity × ClientBehavior)) : Nat × Nat :=
  batch.foldl stepCount (0, 0)

/-! ### Concrete fixtures used by counterexamples and witnesses -/

/-- A Run activity whose `average_speed` key is absent. -/
def runActNoSpeed : Activity :=
  { id := some 1, name := some "Morning Run", type := some "Run", sport_type := some "Run",
    start_date := some "2024-05-01T07:00:00Z", distance := some 5000, moving_time := some 1500,
    total_elevation_gain := some 50, average_speed := none, average_heartrate := none,
    average_cadence := none, average_watts := none }

/-- A Run activity whose `sport_type` key is present but empty. -/
def emptySubTypeAct : Activity := { runActNoSpeed with sport_type := some "" }

/-- A Run activity whose `name` key is present but empty. -/
def emptyNameAct : Activity := { runActNoSpeed with name := some "" }

/-- An unsupported activity (a workout). -/
def workoutAct : Activity := { runActNoSpeed with sport_type := some "Workout", type := some "Workout" }

/-- A store behaviour where every call succeeds and the planned query finds
nothing. -/
def okClient : ClientBehavior :=
  ⟨Except.ok [], Except.ok "page-1", Except.ok [], Except.ok (), Except.ok ()⟩

/-- A store behaviour where the page create raises. -/
def createFailClient : ClientBehavior :=
  ⟨Except.ok [], Except.error (), Except.ok [], Except.ok (), Except.ok ()⟩

/-- A store behaviour where the duplicate-existence query raises. -/
def dupQueryFailClient : ClientBehavior :=
  ⟨Except.error (), Except.ok "page-1", Except.ok [], Except.ok (), Except.ok ()⟩

/-- A store behaviour where every call succeeds and the planned query finds
one record. -/
def plannedOkClient : ClientBehavior :=
  ⟨Except.ok [], Except.ok "page-1", Except.ok [Page.mk "plan-1"], Except.ok (), Except.ok ()⟩

/-! ### Theorems -/

/-- C1: the claim says a Run's derived "Average Pace" is omitted when
average_speed is absent or zero; but `create_activity` writes the key
unconditionally for Runs, with value 0 in that case. -/
theorem C1_run_pace_always_present_counterexample :
    runActNoSpeed.average_speed = none ∧
    (createProperties runActNoSpeed "Run").lookup "Average Pace"
      = some (PropVal.numberV 0) :=
  ⟨rfl, rfl⟩

/-- C1 (amended): the guarded-inclusion rule holds for Run heart rate, Run
cadence, Ride power, Ride heart rate and Swim pace, but Run "Average Pace"
and Ride "Average Speed" are always included, with value 0 when
average_speed is absent or zero. -/
theorem C1_field_guards (a : Activity) :
    ((createProperties a "Run").lookup "Average Pace").isSome = true ∧
    (createProperties { a with average_speed := none } "Run").lookup "Average Pace"
      = some (PropVal.numberV 0) ∧
    ((createProperties a "Run").lookup "Average HR").isSome = truthyNum a.average_heartrate ∧
    ((createProperties a "Run").lookup "Cadence").isSome = truthyNum a.average_cadence ∧
    ((createProperties a "Ride").lookup "Average Speed").isSome = true ∧
    ((createProperties a "Ride").lookup "Average Power").isSome = truthyNum a.average_watts ∧
    ((createProperties a "Ride").lookup "Average HR").isSome = truthyNum a.average_heartrate ∧
    (((createProperties a "Swim").lookup "Average Pace").isSome = true ↔
      0 < a.average_speed.getD 0) := by
  refine ⟨rfl, rfl, ?_, ?_, rfl, ?_, ?_, ?_⟩
  · cases h1 : truthyNum a.average_heartrate <;> cases h2 : truthyNum a.average_cadence <;>
      simp [createProperties, commonProps, runProps, h1, h2, List.lookup]
  · cases h1 : truthyNum a.average_heartrate <;> cases h2 : truthyNum a.average_cadence <;>
      simp [createProperties, commonProps, runProps, h1, h2, List.lookup]
  · cases h1 : truthyNum a.average_watts <;> cases h2 : truthyNum a.average_heartrate <;>
      simp [createProperties, commonProps, rideProps, h1, h2, List.lookup]
  · cases h1 : truthyNum a.average_watts <;> cases h2 : truthyNum a.average_heartrate <;>
      simp [createProperties, commonProps, rideProps, h1, h2, List.lookup]
  · by_cases h : (0 : ℚ) < a.average_speed.getD 0 <;>
      simp [createProperties, commonProps, swimProps, h, List.lookup]

/-- C2: the claim says the stored date field is date-only (truncated at
'T'); but `create_activity` stores the full start timestamp — truncation
happens only inside `find_planned_activity`. -/
theorem C2_date_not_truncated_counterexample :
    (createProperties runActNoSpeed "Run").lookup "Date"
      = some (PropVal.dateV (some "2024-05-01T07:00:00Z")) ∧
    dateOnly "2024-05-01T07:00:00Z" = "2024-05-01" ∧
    ("2024-05-01T07:00:00Z" : String) ≠ "2024-05-01" :=
  ⟨rfl, rfl, by decide⟩

/-- C2 (amended): the date field stored by `create_activity` is the raw
start timestamp, untruncated; the Planned-Activity Matcher queries with the
timestamp truncated at the first 'T', so the stored date and the matching
date differ whenever the timestamp has a time part. -/
theorem C2_date_full_timestamp (a : Activity) (sport_type : String) (c : ClientBehavior)
    (d : String) :
    (createProperties a sport_type).lookup "Date" = some (PropVal.dateV a.start_date) ∧
    (find_planned_activity c (some d) sport_type).2
      = [Call.queryPlanned (dateOnly d) sport_type] ∧
    (find_planned_activity c none sport_type).2 = [] := by
  refine ⟨rfl, ?_, rfl⟩
  cases h : c.plannedQueryResp with
  | error e => simp [find_planned_activity, h]
  | ok results => cases results <;> simp [find_planned_activity, h]

/-- C3: the claim says the classifier falls back to the activity-type
string when the sub-type is absent or empty; but the fallback only happens
when the key is absent — an empty sub-type is looked up itself, so a Run
with an empty sub-type classifies as Other, not Run. -/
theorem C3_empty_subtype_counterexample :
    emptySubTypeAct.sport_type = some "" ∧
    emptySubTypeAct.type = some "Run" ∧
    get_sport_type emptySubTypeAct = "Other" ∧
    ("Other" : String) ≠ "Run" :=
  ⟨rfl, rfl, rfl, by decide⟩

/-- C3 (amended): the classifier looks the sub-type up in the fixed table
(whose range is {Run, Ride, Swim}), defaulting to Other for unmapped
labels; it falls back to the activity-type string only when the sub-type
key is absent — an empty sub-type is looked up directly and yields
Other. -/
theorem C3_classifier (a : Activity) (s t : String) :
    get_sport_type { a with sport_type := none, type := some t }
      = (SPORT_TYPE_MAP.lookup t).getD "Other" ∧
    get_sport_type { a with sport_type := some s }
      = (SPORT_TYPE_MAP.lookup s).getD "Other" ∧
    get_sport_type { a with sport_type := some "", type := some t } = "Other" ∧
    SPORT_TYPE_MAP.all (fun kv => kv.2 ∈ (["Run", "Ride", "Swim"] : List String)) = true :=
  ⟨rfl, rfl, rfl, by decide⟩

/-- C9: the claim says an empty source name yields the fixed placeholder
title; but the placeholder is used only when the name key is absent — an
empty-string name yields an empty title. -/
theorem C9_empty_name_counterexample :
    emptyNameAct.name = some "" ∧
    (createProperties emptyNameAct "Run").lookup "Name" = some (PropVal.titleV "") ∧
    PropVal.titleV "" ≠ PropVal.titleV "Untitled Activity" :=
  ⟨rfl, rfl, by decide⟩

/-- C9 (amended): the title is the fixed placeholder exactly when the name
key is absent; a present name — including the empty string — is stored
as-is. -/
theorem C9_title_default (a : Activity) (sport_type s : String) :
    (createProperties { a with name := none } sport_type).lookup "Name"
      = some (PropVal.titleV "Untitled Activity") ∧
    (createProperties { a with name := some s } sport_type).lookup "Name"
      = some (PropVal.titleV s) :=
  ⟨rfl, rfl⟩

/-- The counting loop of `main`, from an arbitrary starting pair of
counters: each activity adds 1 to exactly one counter according to the
boolean returned by `sync_activity`. -/
theorem foldl_stepCount (batch : List (Activity × ClientBehavior)) (sc fc : Nat) :
    batch.foldl stepCount (sc, fc) =
      (sc + batch.countP (fun ac => (sync_activity ac.2 ac.1).1),
       fc + batch.countP (fun ac => !(sync_activity ac.2 ac.1).1)) := by
  induction batch generalizing sc fc with
  | nil => simp
  | cons x xs ih =>
    simp only [List.foldl_cons, List.countP_cons]
    cases h : (sync_activity x.2 x.1).1 <;>
      simp only [stepCount, h, if_true, if_false, Bool.not_true, Bool.not_false, ih,
        Bool.false_eq_true, decide_True, decide_False, Prod.mk.injEq] <;>
      constructor <;> omega

/-- C4: a failing duplicate-existence query propagates out of
`activity_exists`, `sync_activity` returns False having issued no store
call beyond the failed query (in particular no create), and the activity is
counted as a batch failure. -/
theorem C4_dup_check_failure_aborts (a : Activity) (c : ClientBehavior)
    (h : c.actsQueryResp = Except.error ()) :
    (activity_exists c a.id).1 = Except.error () ∧
    sync_activity c a = (false, [Call.queryActs a.id]) ∧
    runBatch [(a, c)] = (0, 1) := by
  refine ⟨?_, ?_, ?_⟩ <;>
    simp [activity_exists, sync_activity, runBatch, stepCount, h]

/-- C4 witness: concrete failing duplicate query. -/
theorem C4_witness :
    (activity_exists dupQueryFailClient runActNoSpeed.id).1 = Except.error () ∧
    sync_activity dupQueryFailClient runActNoSpeed
      = (false, [Call.queryActs runActNoSpeed.id]) ∧
    runBatch [(runActNoSpeed, dupQueryFailClient)] = (0, 1) :=
  C4_dup_check_failure_aborts runActNoSpeed dupQueryFailClient rfl

/-- C5: one failing activity in a batch does not prevent the others from
being processed — with every other activity succeeding, the final tally is
N-1 succeeded and 1 failed. -/
theorem C5_batch_isolation (xs ys : List (Activity × ClientBehavior)) (a : Activity)
    (c : ClientBehavior)
    (hxs : ∀ p ∈ xs, (sync_activity p.2 p.1).1 = true)
    (hys : ∀ p ∈ ys, (sync_activity p.2 p.1).1 = true)
    (hf : (sync_activity c a).1 = false) :
    runBatch (xs ++ (a, c) :: ys) = (xs.length + ys.length, 1) := by
  have cT : ∀ l : List (Activity × ClientBehavior),
      (∀ p ∈ l, (sync_activity p.2 p.1).1 = true) →
      l.countP (fun ac => (sync_activity ac.2 ac.1).1) = l.length ∧
      l.countP (fun ac => !(sync_activity ac.2 ac.1).1) = 0 := by
    intro l hl
    constructor
    · exact List.countP_eq_length.mpr (fun p hp => by simp [hl p hp])
    · exact List.countP_eq_zero.mpr (fun p hp => by simp [hl p hp])
  obtain ⟨hxT, hxF⟩ := cT xs hxs
  obtain ⟨hyT, hyF⟩ := cT ys hys
  rw [runBatch, foldl_stepCount]
  simp [List.countP_append, List.countP_cons, hxT, hxF, hyT, hyF, hf]

/-- C5 witness: a batch of three, the middle one failing at creation. -/
theorem C5_witness :
    runBatch [(runActNoSpeed, okClient), (runActNoSpeed, createFailClient),
      (runActNoSpeed, okClient)] = (2, 1) :=
  C5_batch_isolation [(runActNoSpeed, okClient)] [(runActNoSpeed, okClient)]
    runActNoSpeed createFailClient (by decide) (by decide) (by rfl)

/-- C7: the Planned-Activity Matcher returns the first record of the query
result when any match, absence-of-match when zero match, and treats a query
failure as absence-of-match. -/
theorem C7_matcher_policy (d sport_type : String) (p : Page) (rest : List Page)
    (c : ClientBehavior) :
    (find_planned_activity { c with plannedQueryResp := Except.ok (p :: rest) }
      (some d) sport_type).1 = some p.id ∧
    (find_planned_activity { c with plannedQueryResp := Except.ok [] }
      (some d) sport_type).1 = none ∧
    (find_planned_activity { c with plannedQueryResp := Except.error () }
      (some d) sport_type).1 = none :=
  ⟨rfl, rfl, rfl⟩

/-- C8: a duplicate (for any activity) and an unsupported category both
yield success with no store call after the existence query — in particular
no create. -/
theorem C8_skip_counted_success (a b : Activity) (c : ClientBehavior) (p : Page)
    (rest : List Page)
    (h : get_sport_type a ∉ (["Run", "Ride", "Swim"] : List String)) :
    sync_activity { c with actsQueryResp := Except.ok (p :: rest) } b
      = (true, [Call.queryActs b.id]) ∧
    sync_activity { c with actsQueryResp := Except.ok [] } a
      = (true, [Call.queryActs a.id]) := by
  constructor
  · simp [sync_activity, activity_exists]
  · simp [sync_activity, activity_exists, h]

/-- C8 witness: a duplicate Run and a fresh unsupported workout. -/
theorem C8_witness :
    sync_activity { okClient with actsQueryResp := Except.ok [Page.mk "x"] } runActNoSpeed
      = (true, [Call.queryActs runActNoSpeed.id]) ∧
    sync_activity { okClient with actsQueryResp := Except.ok [] } workoutAct
      = (true, [Call.queryActs workoutAct.id]) :=
  C8_skip_counted_success workoutAct runActNoSpeed okClient (Page.mk "x") [] (by decide)

/-- C6: once a planned record is matched, the status update is attempted
exactly when the relation-link write succeeded, and neither a link failure
nor a status failure changes the success outcome of the enclosing sync. -/
theorem C6_link_then_status_soft (a : Activity) (c : ClientBehavior) (aid : String)
    (p : Page) (rest : List Page)
    (h1 : c.actsQueryResp = Except.ok [])
    (h2 : get_sport_type a ∈ (["Run", "Ride", "Swim"] : List String))
    (h3 : c.createResp = Except.ok aid) (h4 : aid ≠ "")
    (h5 : ∃ d, a.start_date = some d)
    (h6 : c.plannedQueryResp = Except.ok (p :: rest)) (h7 : p.id ≠ "") :
    (sync_activity c a).1 = true ∧
    (Call.updateStat p.id "Done" ∈ (sync_activity c a).2 ↔
      c.relUpdateResp = Except.ok ()) := by
  obtain ⟨d, hd⟩ := h5
  cases hrel : c.relUpdateResp with
  | ok u =>
    cases u
    cases hstat : c.statusUpdateResp <;>
      simp [sync_activity, activity_exists, create_activity, find_planned_activity,
        link_to_planned_activity, update_planned_status, truthyStr, bne_iff_ne,
        h1, h2, h3, h4, h6, h7, hd, hrel, hstat]
  | error u =>
    cases u
    simp [sync_activity, activity_exists, create_activity, find_planned_activity,
      link_to_planned_activity, update_planned_status, truthyStr, bne_iff_ne,
      h1, h2, h3, h4, h6, h7, hd, hrel]

/-- C6 witness: concrete matched plan with all writes succeeding. -/
theorem C6_witness :
    (sync_activity plannedOkClient runActNoSpeed).1 = true ∧
    (Call.updateStat "plan-1" "Done" ∈ (sync_activity plannedOkClient runActNoSpeed).2 ↔
      plannedOkClient.relUpdateResp = Except.ok ()) :=
  C6_link_then_status_soft runActNoSpeed plannedOkClient "page-1" (Page.mk "plan-1") []
    rfl (by decide) rfl (by decide) ⟨"2024-05-01T07:00:00Z", rfl⟩ rfl (by decide)

/-- C10: the success and failure counters partition the batch exactly:
`sync_activity` is a total boolean function, each activity bumps exactly
one counter, and the two counts sum to the batch length. -/
theorem C10_counters_partition (batch : List (Activity × ClientBehavior)) :
    (runBatch batch).1 + (runBatch batch).2 = batch.length := by
  rw [runBatch, foldl_stepCount]
  simp only [Nat.zero_add]
  induction batch with
  | nil => simp
  | cons x xs ih =>
    simp only [List.countP_cons, List.length_cons]
    cases h : (sync_activity x.2 x.1).1 <;> simp [h] <;> omega

end Strava2Notion
